import Mathlib

/-!
Verification of the page-verification script `verification/verify_sources.py`
(single component, called PageVerifier in the design document).

The script drives a headless browser:

  def run():
      with sync_playwright() as p:                                   -- line 4
          browser = p.chromium.launch(headless=True)                 -- line 5
          page = browser.new_page()                                  -- line 6
          try:                                                       -- line 7
              page.goto("http://localhost:3000/dashboard/sources")   -- line 10
              try:                                                   -- line 14
                  page.wait_for_selector(<h1 selector>, timeout=10000) -- line 15
              except:                                                -- line 16, bare
                  print("Heading not found, page might be erroring due to DB")
              page.screenshot(path="verification/sources_page.png", full_page=True)
              print("Screenshot taken")                              -- line 21
          except Exception as e:                                     -- line 23
              print(f"Error: " + description of e)                   -- line 24
          finally:                                                   -- line 25
              browser.close()                                        -- line 26
  if __name__ == "__main__":                                         -- line 28
      run()                                                          -- line 29

We shallowly embed the control flow of `run` as a pure function of an
environment that records the outcome of each external browser-automation
call (success, or an exception).  Python exceptions are modelled by `Exn`:
a description string plus a flag telling whether the exception is an
instance of class `Exception` (the bare `except:` on line 16 catches every
exception class, while `except Exception` on line 23 catches only
instances of `Exception` — system-exiting exceptions such as
KeyboardInterrupt and SystemExit are BaseException but not Exception and
escape line 23).
-/

/-- Model of a Python exception: its printable description and whether its
class is a subclass of `Exception` (false for system-exiting exceptions
such as KeyboardInterrupt and SystemExit, which derive only from
BaseException). -/
structure Exn where
  desc : String
  isExceptionClass : Bool
deriving DecidableEq

/-- Environment of one run: the outcome of each external call made by the
script, in program order.  `none` means the call succeeded, `some e` means
it raised exception `e`. -/
structure Env where
  launchResult : Option Exn
  newPageResult : Option Exn
  gotoResult : Option Exn
  waitResult : Option Exn
  screenshotResult : Option Exn
deriving DecidableEq

/-- Target URL constant from line 10 of the script. -/
def targetURL : String := "http://localhost:3000/dashboard/sources"

/-- Fixed screenshot output path from line 20 of the script. -/
def screenshotPath : String := "verification/sources_page.png"

/-- Diagnostic line printed by the inner handler, line 17 of the script. -/
def headingWarning : String := "Heading not found, page might be erroring due to DB"

/-- Confirmation line printed after the screenshot call, line 21. -/
def screenshotMsg : String := "Screenshot taken"

/-- Line printed by the outer handler, line 24 of the script: the f-string
interpolates the description of the caught exception. -/
def errorLine (e : Exn) : String := "Error: " ++ e.desc

/-- Timeout argument (milliseconds) of the wait_for_selector call, line 15. -/
def timeoutMs : Nat := 10000

/-- Observable trace of one execution of `run`.
`closedByFinally` records whether the finally block on lines 25-26 ran
`browser.close()`; `playwrightStopped` records whether the context manager
of line 4 ran its exit handler (it stops the playwright driver, which
terminates every browser it launched).  `raised` is the exception, if any,
that propagates out of `run` to its caller. -/
structure RunResult where
  output : List String
  screenshotAttempted : Bool
  screenshotWritten : Bool
  browserAcquired : Bool
  closedByFinally : Bool
  playwrightStopped : Bool
  raised : Option Exn
deriving DecidableEq

/-- Embedding of `run()` (lines 3-26).  Control flow mirrors the source:
`launch` (line 5) and `new_page` (line 6) run before the try of line 7, so
an exception from either propagates out of `run`; the with-statement of
line 4 still runs its exit handler on that path, but the finally of
line 25 does not.  Inside the try, a `goto` exception skips the rest of
the block; the inner bare `except:` of line 16 swallows every exception
class from the wait; the outer `except Exception` of line 23 catches only
exceptions whose class derives from `Exception`. -/
def run (env : Env) : RunResult :=
  match env.launchResult with
  | some e =>
    -- p.chromium.launch raised before any browser existed: nothing to
    -- release; the with-statement exit still runs; run propagates e.
    ⟨[], false, false, false, false, true, some e⟩
  | none =>
    match env.newPageResult with
    | some e =>
      -- browser.new_page raised outside the try/finally: browser.close is
      -- not called, but the with-statement exit stops the driver.
      ⟨[], false, false, true, false, true, some e⟩
    | none =>
      match env.gotoResult with
      | some e =>
        -- page.goto raised: control leaves the try before the wait and
        -- the screenshot.  except Exception catches it only when e is an
        -- Exception instance; the finally runs either way.
        if e.isExceptionClass then
          ⟨[errorLine e], false, false, true, true, true, none⟩
        else
          ⟨[], false, false, true, true, true, some e⟩
      | none =>
        -- wait_for_selector, wrapped in the bare except of line 16: any
        -- exception whatsoever is reduced to the fixed diagnostic line.
        let waitOut : List String :=
          match env.waitResult with
          | some _ => [headingWarning]
          | none => []
        match env.screenshotResult with
        | some e =>
          if e.isExceptionClass then
            ⟨waitOut ++ [errorLine e], true, false, true, true, true, none⟩
          else
            ⟨waitOut, true, false, true, true, true, some e⟩
        | none =>
          ⟨waitOut ++ [screenshotMsg], true, true, true, true, true, none⟩

/-- A browser acquired by line 5 counts as released when either the
finally block closed it or the playwright driver holding it was stopped. -/
def RunResult.browserReleased (r : RunResult) : Bool :=
  r.closedByFinally || r.playwrightStopped

/-- Process exit status of one invocation: a Python process whose main
call returns normally exits with status 0; an uncaught exception aborts
the process with a nonzero status (modelled as 1). -/
def exitCode (r : RunResult) : Nat :=
  match r.raised with
  | none => 0
  | some _ => 1

/-- Embedding of the `__main__` guard (lines 28-29): the script calls
`run()` and never reads `sys.argv`, so the argument vector is ignored. -/
def mainEntry (_argv : List String) (env : Env) : RunResult := run env

/-- Insert a path into a directory listing, overwriting (hence not
duplicating) an existing entry with the same path. -/
def writeFile (fs : List String) (p : String) : List String :=
  if fs.contains p then fs else p :: fs

/-- One run together with its effect on the set of files present: a run
that reaches a successful screenshot call writes (creates or overwrites)
the single fixed path; no other file is touched. -/
def runWithFS (fs : List String) (env : Env) : RunResult × List String :=
  let r := run env
  (r, if r.screenshotWritten then writeFile fs screenshotPath else fs)

/-- Characters of the longest prefix of a path that precedes its last
slash, i.e. the parent directory of the path. -/
def takeBeforeLastSlash : List Char → List Char
  | [] => []
  | c :: cs =>
    if cs.contains '/' then c :: takeBeforeLastSlash cs
    else []

/-- Parent directory of a path string. -/
def dirOf (p : String) : String := String.mk (takeBeforeLastSlash p.data)

/-- Filesystem state: the directories and the files that exist. -/
structure FSState where
  dirs : List String
  files : List String
deriving DecidableEq

/-- Modelled from the spec: the filesystem effect of the screenshot call of
line 20 lives inside the browser-automation library, whose code is not
part of src/.  Step 5 of the design document specifies it: the image is
written to the fixed output path, creating parent directories as needed,
and an existing file at that path is overwritten. -/
def screenshotWrite (fs : FSState) (p : String) : FSState :=
  ⟨writeFile fs.dirs (dirOf p), writeFile fs.files p⟩

/-- Page element: its (lowercased) tag name and its text content. -/
structure Elem where
  tag : String
  text : String
deriving DecidableEq

/-- Is `pat` a contiguous sublist of the second list. -/
def listHasSub (pat : List Char) : List Char → Bool
  | [] => pat.isEmpty
  | c :: t => pat.isPrefixOf (c :: t) || listHasSub pat t

/-- Case-insensitive substring test on strings, matching the semantics of
the has-text pseudo-class of the automation library (case-insensitive
substring search in the text content). -/
def containsSub (pat s : String) : Bool :=
  listHasSub (pat.data.map Char.toLower) (s.data.map Char.toLower)

/-- An apostrophe character, written by code point. -/
def apos : String := String.mk [Char.ofNat 39]

/-- Tag part of the selector string of line 15. -/
def selTag : String := "h1"

/-- Text argument of the has-text pseudo-class in the selector of line 15. -/
def selText : String := "Data Sources"

/-- Selector string passed to wait_for_selector on line 15 of the script. -/
def selector : String := selTag ++ ":has-text(" ++ apos ++ selText ++ apos ++ ")"

/-- Semantics of the selector of line 15 on a page element: the library
matches elements whose tag is the selector tag and whose text contains
the has-text argument (case-insensitively). -/
def selectorMatches (e : Elem) : Bool :=
  e.tag == selTag && containsSub selText e.text

/-- Definition following the words of the spec claim, for comparison with
`selectorMatches`: an element matching "heading containing the text Data
Sources" — any heading element (h1 through h6) with that text. -/
def specHeadingMatches (e : Elem) : Bool :=
  (e.tag == "h1" || e.tag == "h2" || e.tag == "h3" ||
   e.tag == "h4" || e.tag == "h5" || e.tag == "h6") && containsSub selText e.text

/-- Environment in which every external call succeeds. -/
def envAllOk : Env := ⟨none, none, none, none, none⟩

/-- Environment in which browser.new_page raises an Exception-class error
(for example, the freshly launched browser crashed). -/
def envNewPageErr : Env := ⟨none, some ⟨"Target closed", true⟩, none, none, none⟩

/-- Environment in which page.goto raises a connection error. -/
def envGotoErr : Env := ⟨none, none, some ⟨"net::ERR_CONNECTION_REFUSED", true⟩, none, none⟩

/-- Environment in which the readiness wait times out and everything else
succeeds. -/
def envWaitTimeout : Env := ⟨none, none, none, some ⟨"Timeout 10000ms exceeded", true⟩, none⟩

/-- Environment in which the readiness wait is interrupted by a
system-exiting exception (KeyboardInterrupt: not an Exception instance). -/
def envWaitInterrupt : Env := ⟨none, none, none, some ⟨"KeyboardInterrupt", false⟩, none⟩

/-- Environment in which the screenshot call raises an Exception-class
error and everything before it succeeds. -/
def envShotErr : Env := ⟨none, none, none, none, some ⟨"Unable to write file", true⟩⟩

/-- Helper: a path just written is present in the listing. -/
theorem writeFile_contains (l : List String) (p : String) :
    (writeFile l p).contains p = true := by
  unfold writeFile
  split
  · assumption
  · simp

/-- Helper: writing the same path twice is the same as writing it once. -/
theorem writeFile_idem (l : List String) (p : String) :
    writeFile (writeFile l p) p = writeFile l p := by
  by_cases hp : p ∈ l <;> simp [writeFile, hp]

/-- Helper: a write adds at most one entry. -/
theorem writeFile_length (l : List String) (p : String) :
    (writeFile l p).length ≤ l.length + 1 := by
  unfold writeFile
  split
  · exact Nat.le_succ _
  · simp

/-- Helper: every entry of a listing after a write was already present or
is the written path. -/
theorem writeFile_all (l : List String) (p : String) :
    (writeFile l p).all (fun q => l.contains q || (q == p)) = true := by
  unfold writeFile
  split
  · exact List.all_eq_true.mpr fun q hq => by
      simp
      exact Or.inl hq
  · exact List.all_eq_true.mpr fun q hq => by
      rcases List.mem_cons.mp hq with rfl | hq2
      · simp
      · simp
        exact Or.inl hq2

/-- Helper: entries already present stay described by the same bound. -/
theorem listing_all_self (l : List String) (p : String) :
    l.all (fun q => l.contains q || (q == p)) = true :=
  List.all_eq_true.mpr fun q hq => by
    simp
    exact Or.inl hq

/-- C1 counterexample: the claim covers step 2 (opening the page), but
browser.new_page on line 6 runs before the try of line 7, so an
Exception raised there is not caught: run propagates it, prints no
Error line, and the process exits with a nonzero status. -/
theorem c1_counterexample :
    (run envNewPageErr).raised = some ⟨"Target closed", true⟩ ∧
    (run envNewPageErr).output = [] ∧
    exitCode (run envNewPageErr) ≠ 0 := by decide

/-- C1 (amended): for every Exception-class exception raised during
navigation (step 3) or the screenshot (step 5) — the wait of step 4
cannot raise past its bare except — run catches it at the top level,
prints exactly one line of the form Error: description, does not
re-raise, and the process exits with status 0. -/
theorem c1_amended (env : Env) (e : Exn)
    (hl : env.launchResult = none) (hn : env.newPageResult = none)
    (hc : e.isExceptionClass = true)
    (hw : env.gotoResult = some e ∨
          (env.gotoResult = none ∧ env.screenshotResult = some e)) :
    ((run env).output = [errorLine e] ∨
     (run env).output = [headingWarning, errorLine e]) ∧
    (run env).raised = none ∧ exitCode (run env) = 0 := by
  rcases hw with hg | ⟨hg, hs⟩
  · simp [run, hl, hn, hg, hc, exitCode]
  · rcases h : env.waitResult with _ | w <;>
      simp [run, hl, hn, hg, hs, hc, h, exitCode]

/-- C1 witness: a connection-refused navigation failure is caught,
reported on one Error line, and the run exits normally. -/
theorem c1_amended_witness :
    ((run envGotoErr).output = [errorLine ⟨"net::ERR_CONNECTION_REFUSED", true⟩] ∨
     (run envGotoErr).output = [headingWarning, errorLine ⟨"net::ERR_CONNECTION_REFUSED", true⟩]) ∧
    (run envGotoErr).raised = none ∧ exitCode (run envGotoErr) = 0 :=
  c1_amended envGotoErr ⟨"net::ERR_CONNECTION_REFUSED", true⟩ rfl rfl rfl (Or.inl rfl)

/-- C2 counterexample: when navigation (step 3) fails, control jumps to
the outer handler and the screenshot of step 5 is never attempted, so a
run with a failed navigation does not try to leave a screenshot behind. -/
theorem c2_counterexample :
    (run envGotoErr).screenshotAttempted = false ∧
    (run envGotoErr).raised = none ∧
    (run envGotoErr).output = [errorLine ⟨"net::ERR_CONNECTION_REFUSED", true⟩] := by
  decide

/-- C2 (amended): whenever navigation succeeds, the screenshot capture of
step 5 is attempted before cleanup regardless of whether the readiness
wait of step 4 failed; a navigation failure, however, skips the
screenshot and goes to the outer handler. -/
theorem c2_amended (env : Env)
    (hl : env.launchResult = none) (hn : env.newPageResult = none)
    (hg : env.gotoResult = none) :
    (run env).screenshotAttempted = true := by
  rcases hw : env.waitResult with _ | w <;>
    rcases hs : env.screenshotResult with _ | e2 <;>
    simp only [run, hl, hn, hg, hw, hs] <;>
    first
      | rfl
      | (split <;> rfl)

/-- C2 witness: with a timed-out wait the screenshot is still attempted. -/
theorem c2_amended_witness :
    (run envWaitTimeout).screenshotAttempted = true :=
  c2_amended envWaitTimeout rfl rfl rfl

/-- C3 confirmed: every failure of the readiness wait is swallowed
locally; the first printed line is the fixed diagnostic (independent of
the exception and carrying no detail from it), and the run proceeds to
attempt the screenshot. -/
theorem c3_wait_swallowed (env : Env) (e : Exn)
    (hl : env.launchResult = none) (hn : env.newPageResult = none)
    (hg : env.gotoResult = none) (hw : env.waitResult = some e) :
    (run env).output.head? = some headingWarning ∧
    (run env).screenshotAttempted = true := by
  rcases hs : env.screenshotResult with _ | e2 <;>
    simp only [run, hl, hn, hg, hw, hs] <;>
    (try split) <;>
    simp

/-- C3 witness: the timed-out wait prints the diagnostic first and the
screenshot step still runs. -/
theorem c3_wait_swallowed_witness :
    (run envWaitTimeout).output.head? = some headingWarning ∧
    (run envWaitTimeout).screenshotAttempted = true :=
  c3_wait_swallowed envWaitTimeout ⟨"Timeout 10000ms exceeded", true⟩ rfl rfl rfl rfl

/-- C4 confirmed: on every exit path on which the browser engine was
acquired, it is released before run terminates — either by the finally
block closing it or by the with-statement stopping the playwright driver
that owns it. -/
theorem c4_browser_released (env : Env)
    (h : (run env).browserAcquired = true) :
    (run env).browserReleased = true := by
  rcases h1 : env.launchResult <;> rcases h2 : env.newPageResult <;>
    rcases h3 : env.gotoResult with _ | eg <;>
    rcases h4 : env.waitResult <;>
    rcases h5 : env.screenshotResult with _ | es <;>
    simp [run, RunResult.browserReleased, h1, h2, h3, h4, h5] <;>
    split <;> simp

/-- C4 witness: in the all-success run the browser is acquired and
released. -/
theorem c4_browser_released_witness :
    (run envAllOk).browserAcquired = true ∧
    (run envAllOk).browserReleased = true :=
  ⟨rfl, c4_browser_released envAllOk rfl⟩

/-- C5 counterexample: an h2 heading whose text is Data Sources is a
heading element containing the text, yet the selector of line 15 does not
match it — the wait is not for "any heading element with that text". -/
theorem c5_counterexample :
    specHeadingMatches ⟨"h2", "Data Sources"⟩ = true ∧
    selectorMatches ⟨"h2", "Data Sources"⟩ = false := by decide

/-- C5 (amended): the readiness wait waits for an h1 element containing
the text Data Sources — a strict subset of the heading elements the spec
sentence describes — and is bounded by a timeout of exactly 10 seconds
(10000 milliseconds). -/
theorem c5_amended :
    timeoutMs = 10 * 1000 ∧
    (∀ e : Elem, selectorMatches e = true → specHeadingMatches e = true) ∧
    selector = "h1:has-text(" ++ apos ++ "Data Sources" ++ apos ++ ")" := by
  refine ⟨rfl, ?_, rfl⟩
  intro e h
  simp only [selectorMatches, selTag, Bool.and_eq_true] at h
  obtain ⟨h1, h2⟩ := h
  simp [specHeadingMatches, h1, h2]

/-- C5 witness: an h1 element with the text is matched by the selector and
counts as a heading with the text. -/
theorem c5_amended_witness :
    selectorMatches ⟨"h1", "Data Sources"⟩ = true ∧
    specHeadingMatches ⟨"h1", "Data Sources"⟩ = true :=
  ⟨by decide, c5_amended.2.1 ⟨"h1", "Data Sources"⟩ (by decide)⟩

/-- C6 counterexample: starting from a filesystem with no directories and
no files, the modelled screenshot write of line 20 succeeds, creating the
parent directory and the file — the step does not fail and the
verification directory is created by the run, contrary to the claim. -/
theorem c6_counterexample :
    (screenshotWrite ⟨[], []⟩ screenshotPath).dirs = ["verification"] ∧
    (screenshotWrite ⟨[], []⟩ screenshotPath).files = [screenshotPath] := by decide

/-- C6 (amended): the screenshot write creates the parent directory as
needed and places the file at the fixed path; if the screenshot call
nevertheless raises an Exception-class error, that failure is caught by
the outer handler, printed as an Error line, and the run does not raise. -/
theorem c6_amended (fs : FSState) (env : Env) (e : Exn)
    (hl : env.launchResult = none) (hn : env.newPageResult = none)
    (hg : env.gotoResult = none)
    (hs : env.screenshotResult = some e) (hc : e.isExceptionClass = true) :
    (screenshotWrite fs screenshotPath).dirs.contains (dirOf screenshotPath) = true ∧
    (screenshotWrite fs screenshotPath).files.contains screenshotPath = true ∧
    errorLine e ∈ (run env).output ∧ (run env).raised = none := by
  refine ⟨writeFile_contains _ _, writeFile_contains _ _, ?_, ?_⟩ <;>
    rcases hw : env.waitResult with _ | w <;>
    simp [run, hl, hn, hg, hs, hw, hc]

/-- C6 witness: on the empty filesystem the write creates directory and
file, and a write error is reported by the outer handler. -/
theorem c6_amended_witness :
    (screenshotWrite ⟨[], []⟩ screenshotPath).dirs.contains (dirOf screenshotPath) = true ∧
    (screenshotWrite ⟨[], []⟩ screenshotPath).files.contains screenshotPath = true ∧
    errorLine ⟨"Unable to write file", true⟩ ∈ (run envShotErr).output ∧
    (run envShotErr).raised = none :=
  c6_amended ⟨[], []⟩ envShotErr ⟨"Unable to write file", true⟩ rfl rfl rfl rfl rfl

/-- C7 confirmed: every line any run prints is the heading-not-found
warning, the screenshot-taken confirmation, or a line of the form
Error: description — no run prints anything else. -/
theorem c7_output_forms (env : Env) (l : String)
    (h : l ∈ (run env).output) :
    l = headingWarning ∨ l = screenshotMsg ∨ ∃ s, l = "Error: " ++ s := by
  obtain ⟨lr, nr, gr, wr, sr⟩ := env
  rcases lr with _ | le <;> rcases nr with _ | ne <;>
    rcases gr with _ | ge <;> rcases wr with _ | we <;> rcases sr with _ | se <;>
    simp only [run, errorLine] at h <;>
    (try split at h) <;>
    simp only [List.mem_append, List.mem_singleton, List.mem_cons,
      List.not_mem_nil, or_false, false_or] at h <;>
    first
      | exact Or.inl h
      | exact Or.inr (Or.inl h)
      | exact Or.inr (Or.inr ⟨_, h⟩)
      | (rcases h with h | h <;>
          first
            | exact Or.inl h
            | exact Or.inr (Or.inl h)
            | exact Or.inr (Or.inr ⟨_, h⟩))

/-- C7 witness: the confirmation line printed by the all-success run is
one of the three permitted forms. -/
theorem c7_output_forms_witness :
    screenshotMsg ∈ (run envAllOk).output ∧
    (screenshotMsg = headingWarning ∨ screenshotMsg = screenshotMsg ∨
     ∃ s, screenshotMsg = "Error: " ++ s) :=
  ⟨by decide, c7_output_forms envAllOk screenshotMsg (by decide)⟩

/-- C8 confirmed: two successive runs write to the same fixed path —
after both runs the file listing has grown by at most one entry, and
every entry is either pre-existing or that fixed path — and the second
run's observable result (printed lines included) is what it would have
been with no prior run: no state is shared across runs. -/
theorem c8_two_runs (fs : List String) (env env2 : Env) :
    (runWithFS ((runWithFS fs env).2) env2).1 = (runWithFS fs env2).1 ∧
    ((runWithFS ((runWithFS fs env).2) env2).2).length ≤ fs.length + 1 ∧
    ((runWithFS ((runWithFS fs env).2) env2).2).all
      (fun q => fs.contains q || (q == screenshotPath)) = true := by
  refine ⟨rfl, ?_, ?_⟩ <;>
    cases hb1 : (run env).screenshotWritten <;>
    cases hb2 : (run env2).screenshotWritten <;>
    simp only [runWithFS, hb1, hb2, Bool.false_eq_true, if_false, if_true] <;>
    first
      | exact Nat.le_succ _
      | exact writeFile_length _ _
      | exact listing_all_self _ _
      | exact writeFile_all _ _
      | (rw [writeFile_idem]
         first
           | exact writeFile_length _ _
           | exact writeFile_all _ _)

/-- C9 confirmed: the entry point parses no command-line argument, so two
invocations differing only in their argument vectors have identical
observable behavior: the same full result, hence the same printed lines,
the same screenshot effect, and the same exit status. -/
theorem c9_args_ignored (a1 a2 : List String) (env : Env) :
    mainEntry a1 env = mainEntry a2 env ∧
    exitCode (mainEntry a1 env) = exitCode (mainEntry a2 env) ∧
    (mainEntry a1 env).output = (mainEntry a2 env).output ∧
    (mainEntry a1 env).screenshotWritten = (mainEntry a2 env).screenshotWritten :=
  ⟨rfl, rfl, rfl, rfl⟩

/-- C10 confirmed: the bare except of line 16 catches every exception
class, including system-exiting ones that are not Exception instances
(KeyboardInterrupt, SystemExit): the run prints the warning, continues to
the screenshot, and nothing propagates out of the wait step. -/
theorem c10_bare_except_catches_all (env : Env) (e : Exn)
    (hl : env.launchResult = none) (hn : env.newPageResult = none)
    (hg : env.gotoResult = none) (hw : env.waitResult = some e)
    (hb : e.isExceptionClass = false) (hs : env.screenshotResult = none) :
    (run env).output = [headingWarning, screenshotMsg] ∧
    (run env).raised = none := by
  simp [run, hl, hn, hg, hw, hs]

/-- C10 witness: a KeyboardInterrupt during the wait is swallowed and the
run still takes its screenshot and returns normally. -/
theorem c10_bare_except_catches_all_witness :
    (run envWaitInterrupt).output = [headingWarning, screenshotMsg] ∧
    (run envWaitInterrupt).raised = none :=
  c10_bare_except_catches_all envWaitInterrupt ⟨"KeyboardInterrupt", false⟩
    rfl rfl rfl rfl rfl rfl
